import Mathlib

/-!
Verification of the MedCLIP repository's retrieval, statistics, training-loop
and contrastive-loss code.

The embedding is shallow: tensors become lists (over `ℚ`, where the code under
scrutiny is pure finite arithmetic and comparison) or finite functions over `ℝ`
(where the code uses `exp`, `log` and square roots); Python float division by
zero, which raises `ZeroDivisionError`, is modelled by `Option` with `none` for
the raised error.
-/

namespace MedCLIP

/-! ## Similarity statistics and score calibration
(`CLIPRetrieval` in src/CLIP_retrieval.py, `CLIPRetrievalIN` in
src/CLIP_retrievalIN.py; the two files' statistics and scoring methods are
line-for-line identical.) -/

/-- Dot product of two vectors (`torch.matmul` on 1-d slices). -/
def dotQ (u v : List ℚ) : ℚ := (List.zipWith (· * ·) u v).sum

/-- Minimum entry of a tensor (`similarities.min()`); torch errors on an empty
tensor, the default 0 is never reached on the inputs the class builds. -/
def listMin : List ℚ → ℚ
  | [] => 0
  | x :: xs => xs.foldl min x

/-- Maximum entry of a tensor (`similarities.max()`). -/
def listMax : List ℚ → ℚ
  | [] => 0
  | x :: xs => xs.foldl max x

/-- Insertion into an ascending list, for the sort underlying `torch.quantile`. -/
def insertAsc (x : ℚ) : List ℚ → List ℚ
  | [] => [x]
  | y :: ys => if x ≤ y then x :: y :: ys else y :: insertAsc x ys

/-- Ascending sort of the flattened tensor values. -/
def sortAsc (xs : List ℚ) : List ℚ := xs.foldr insertAsc []

/-- `torch.quantile(q)` over the flattened tensor: sort, take the (possibly
fractional) position `q * (n - 1)` with linear interpolation. -/
def quantileQ (q : ℚ) (xs : List ℚ) : ℚ :=
  let s := sortAsc xs
  let n := s.length
  if n = 0 then 0 else
    let pos : ℚ := q * ((n : ℚ) - 1)
    let i : ℕ := pos.floor.toNat
    let lo := s.getD i 0
    let hi := s.getD (min (i + 1) (n - 1)) 0
    lo + (pos - (i : ℚ)) * (hi - lo)

/-- The per-modality statistics record built by `compute_stats`.  torch reports
`std = sqrt(varUnbiased)`; the square root leaves `ℚ`, so the record carries the
quantity under the root. -/
structure SimStats where
  mean : ℚ
  varUnbiased : ℚ
  min : ℚ
  max : ℚ
  p25 : ℚ
  p50 : ℚ
  p75 : ℚ
  p90 : ℚ
  p95 : ℚ

/-- `CLIPRetrieval.compute_stats`: mean, (squared) std, min, max and the five
percentiles of a similarity matrix, all over its flattened entries. -/
def compute_stats (similarities : List (List ℚ)) : SimStats :=
  let entries := similarities.flatten
  let μ := entries.sum / (entries.length : ℚ)
  { mean := μ
    varUnbiased := (entries.map (fun x => (x - μ) ^ 2)).sum / ((entries.length : ℚ) - 1)
    min := listMin entries
    max := listMax entries
    p25 := quantileQ (25 / 100) entries
    p50 := quantileQ (50 / 100) entries
    p75 := quantileQ (75 / 100) entries
    p90 := quantileQ (90 / 100) entries
    p95 := quantileQ (95 / 100) entries }

/-- `stats = self.text_stats if modality == 'text' else self.image_stats`:
the statistics record both scoring methods select from the modality string. -/
def pickStats (textStats imageStats : SimStats) (modality : String) : SimStats :=
  if modality = "text" then textStats else imageStats

/-- Body of `normalize_similarity` once the statistics record is selected.
`(similarity - min) / (max - min) * 100` is Python float arithmetic: a
zero-width range raises `ZeroDivisionError`, modelled as `none`. -/
def normWith (stats : SimStats) (similarity : ℚ) : Option ℚ :=
  if stats.max - stats.min = 0 then none
  else some ((similarity - stats.min) / (stats.max - stats.min) * 100)

/-- `CLIPRetrieval.normalize_similarity` (identical in `CLIPRetrievalIN`). -/
def normalize_similarity (textStats imageStats : SimStats) (similarity : ℚ)
    (modality : String) : Option ℚ :=
  normWith (pickStats textStats imageStats modality) similarity

/-- Body of `evaluate_similarity` once the statistics record is selected:
the descending `>=` percentile ladder. -/
def evalWith (stats : SimStats) (similarity : ℚ) : String :=
  if similarity ≥ stats.p95 then "Excellent match (top 5%)"
  else if similarity ≥ stats.p90 then "Very good match (top 10%)"
  else if similarity ≥ stats.p75 then "Good match (top 25%)"
  else if similarity ≥ stats.p50 then "Moderate match"
  else "Weak match"

/-- `CLIPRetrieval.evaluate_similarity` (identical in `CLIPRetrievalIN`). -/
def evaluate_similarity (textStats imageStats : SimStats) (similarity : ℚ)
    (modality : String) : String :=
  evalWith (pickStats textStats imageStats modality) similarity

/-! ### `compute_baseline_statistics`
`torch.randperm(N)` is modelled by an arbitrary list `perm` that is a
permutation of `range N`; the code keeps its first `min 1000 N` entries. -/

/-- `n_samples = min(1000, len(embeddings))`. -/
def n_samples (corpusLen : ℕ) : ℕ := min 1000 corpusLen

/-- `torch.randperm(len(embeddings))[:n_samples]`. -/
def sample_indices (corpusLen : ℕ) (perm : List ℕ) : List ℕ :=
  perm.take (n_samples corpusLen)

/-- `samples = embeddings[indices]`: the sampled rows of the embedding table. -/
def sample_rows (embeddings : List (List ℚ)) (perm : List ℕ) : List (List ℚ) :=
  (sample_indices embeddings.length perm).map (fun i => embeddings.getD i [])

/-- `torch.matmul(samples, samples.T)`: the full pairwise similarity matrix
over the sample only. -/
def pairwise_sims (rows : List (List ℚ)) : List (List ℚ) :=
  rows.map (fun u => rows.map (fun v => dotQ u v))

/-- One modality's statistics in `compute_baseline_statistics`: sample, form
the pairwise matrix over the sample, pass it to `compute_stats`. -/
def compute_baseline_statistics (embeddings : List (List ℚ)) (perm : List ℕ) : SimStats :=
  compute_stats (pairwise_sims (sample_rows embeddings perm))

/-! ## Training loop (`Trainer` in src/Trainer.py)
`Trainer.run` is `for epoch in range(epochs): train(epoch); validate(epoch)`
followed by a single `torch.save`.  `train` performs one optimizer step per
training batch; `validate` performs one forward pass per validation batch
under `no_grad`.  The control flow is modelled as the trace of these actions. -/

inductive TrainerEvent where
  | gradStep (epoch batchIdx : ℕ) : TrainerEvent
  | valForward (epoch batchIdx : ℕ) : TrainerEvent
  | saveModel : TrainerEvent
deriving DecidableEq

/-- Recognizes a TRAIN-phase gradient step. -/
def isGradStep : TrainerEvent → Bool
  | .gradStep _ _ => true
  | _ => false

/-- Recognizes a VALIDATE-phase forward pass. -/
def isValForward : TrainerEvent → Bool
  | .valForward _ _ => true
  | _ => false

/-- Trace of `Trainer.train(epoch)`: one `optimizer.step()` per training batch. -/
def trainPhaseTrace (epoch numTrainBatches : ℕ) : List TrainerEvent :=
  (List.range numTrainBatches).map (TrainerEvent.gradStep epoch)

/-- Trace of `Trainer.validate(epoch)`: one forward-only loss per validation batch. -/
def validatePhaseTrace (epoch numValBatches : ℕ) : List TrainerEvent :=
  (List.range numValBatches).map (TrainerEvent.valForward epoch)

/-- One iteration of the epoch loop: TRAIN phase then VALIDATE phase. -/
def epochTrace (epoch numTrainBatches numValBatches : ℕ) : List TrainerEvent :=
  trainPhaseTrace epoch numTrainBatches ++ validatePhaseTrace epoch numValBatches

/-- `for epoch in range(epochs): self.train(epoch); self.validate(epoch)`. -/
def epochLoopTrace : ℕ → ℕ → ℕ → List TrainerEvent
  | 0, _, _ => []
  | e + 1, tb, vb => epochLoopTrace e tb vb ++ epochTrace e tb vb

/-- `Trainer.run`: the epoch loop, then exactly one `torch.save`. -/
def runTrace (epochs numTrainBatches numValBatches : ℕ) : List TrainerEvent :=
  epochLoopTrace epochs numTrainBatches numValBatches ++ [TrainerEvent.saveModel]

/-! ### Optimizer lifecycle (`Trainer.train`, src/Trainer.py line 39)
`optimizer = torch.optim.AdamW(self.model.parameters(), ...)` is executed
inside `train`, hence re-run at every epoch.  The AdamW update rule itself is
library code outside this repository, so the per-batch update is an abstract
function; only the construction and threading of its state is repository code. -/

/-- The internal state of a torch optimizer over parameter moments of type `M`. -/
structure AdamState (M : Type) where
  expAvg : M
  expAvgSq : M
  stepCount : ℕ

/-- Modelled from the spec: `torch.optim.AdamW(...)` (library collaborator, not
under src/) — a freshly constructed optimizer has first and second moment
estimates zero and step count 0. -/
def freshAdamState {M : Type} (zero : M) : AdamState M := ⟨zero, zero, 0⟩

/-- `Trainer.train(epoch)` for the parameters: construct a fresh optimizer,
then fold one `loss.backward(); optimizer.step()` update per batch. -/
def trainEpoch {P M B : Type} (adamStep : P → AdamState M → B → P × AdamState M)
    (zero : M) (batches : List B) (θ : P) : P × AdamState M :=
  batches.foldl (fun s b => adamStep s.1 s.2 b) (θ, freshAdamState zero)

/-- The epoch loop of `Trainer.run`, recording for every epoch the optimizer
state `train` constructs at its start and the state left at its end.  Only the
parameters are passed on to the next epoch (`validate` runs under
`torch.no_grad()` and mutates nothing). -/
def trainerEpochs {P M B : Type} (adamStep : P → AdamState M → B → P × AdamState M)
    (zero : M) (batches : List B) : ℕ → P → P × List (AdamState M × AdamState M)
  | 0, θ => (θ, [])
  | e + 1, θ =>
    let prev := trainerEpochs adamStep zero batches e θ
    let stepped := trainEpoch adamStep zero batches prev.1
    (stepped.1, prev.2 ++ [(freshAdamState zero, stepped.2)])

/-! ## Contrastive model (`CLIP` in src/CLIP_model.py) and index building
Real-valued part: projection heads, L2 normalization, temperature, the
symmetric cross-entropy loss, and what `build_dictionnaries` stores. -/

/-- Dot product over `Fin d` vectors. -/
noncomputable def dotR {d : ℕ} (u v : Fin d → ℝ) : ℝ := ∑ i, u i * v i

/-- Squared L2 norm. -/
noncomputable def sqNormR {d : ℕ} (v : Fin d → ℝ) : ℝ := ∑ i, v i ^ 2

/-- `F.normalize(v, dim=-1)`: division by the L2 norm.  torch clamps the
denominator at `eps = 1e-12`, which on exact reals only matters for the zero
vector, where both the clamp and Lean's `x / 0 = 0` give the zero vector. -/
noncomputable def l2normalize {d : ℕ} (v : Fin d → ℝ) : Fin d → ℝ :=
  fun i => v i / Real.sqrt (sqNormR v)

/-- `nn.Linear(embedding_dim, projection_dim)`: `ProjectionHead.forward` is the
affine map `W x + b`. -/
noncomputable def linearForward {dIn dOut : ℕ} (W : Fin dOut → Fin dIn → ℝ)
    (b : Fin dOut → ℝ) (x : Fin dIn → ℝ) : Fin dOut → ℝ :=
  fun o => (∑ i, W o i * x i) + b o

/-- What `CLIPRetrieval.build_dictionnaries` (src/CLIP_retrieval.py lines
22-43) appends to its embedding tables for one sample: the projection head
output, with no further processing. -/
noncomputable def retrievalStoredEmbedding {dIn dOut : ℕ} (W : Fin dOut → Fin dIn → ℝ)
    (b : Fin dOut → ℝ) (x : Fin dIn → ℝ) : Fin dOut → ℝ :=
  linearForward W b x

/-- What `CLIPRetrievalIN.build_dictionnaries` (src/CLIP_retrievalIN.py lines
28-51) appends to its embedding tables for one sample: the projection head
output passed through `F.normalize(..., dim=-1)`. -/
noncomputable def retrievalINStoredEmbedding {dIn dOut : ℕ} (W : Fin dOut → Fin dIn → ℝ)
    (b : Fin dOut → ℝ) (x : Fin dIn → ℝ) : Fin dOut → ℝ :=
  l2normalize (linearForward W b x)

/-- Cosine similarity of two raw vectors. -/
noncomputable def cosineSim {d : ℕ} (u v : Fin d → ℝ) : ℝ :=
  dotR u v / (Real.sqrt (sqNormR u) * Real.sqrt (sqNormR v))

/-- `F.cross_entropy` of one logits row against an integer target:
`log (sum_j exp (row j)) - row target`. -/
noncomputable def crossEntropyRow {n : ℕ} (row : Fin n → ℝ) (target : Fin n) : ℝ :=
  Real.log (∑ j, Real.exp (row j)) - row target

/-- `F.cross_entropy(L, labels)` with `labels = arange(n)` and the default
mean reduction: mean over rows of the per-row cross-entropy against the
diagonal target. -/
noncomputable def meanCrossEntropy {n : ℕ} (L : Fin n → Fin n → ℝ) : ℝ :=
  (∑ i, crossEntropyRow (L i) i) / n

/-- `self.temperature = nn.Parameter(torch.ones([]) * np.log(1 / 0.07))`
(src/CLIP_model.py line 17). -/
noncomputable def clipTemperatureInit : ℝ := 1 * Real.log (1 / 0.07)

/-- The loss computed on two already-projected embedding sets: normalize both,
`logits = text @ image.T * exp(temperature)`, cross-entropy of `logits` rows
and of `logits.T` rows against the diagonal, averaged.  `CLIP.forward` is this
applied to the projection head outputs. -/
noncomputable def contrastiveCore {B d : ℕ} (temperature : ℝ)
    (imageSet textSet : Fin B → Fin d → ℝ) : ℝ :=
  let imageEmbeddings := fun i => l2normalize (imageSet i)
  let textEmbeddings := fun i => l2normalize (textSet i)
  let logits := fun i j => dotR (textEmbeddings i) (imageEmbeddings j) * Real.exp temperature
  let textsLoss := meanCrossEntropy logits
  let imagesLoss := meanCrossEntropy (fun i j => logits j i)
  (imagesLoss + textsLoss) / 2

/-- `CLIP.forward(sources, targets)` (src/CLIP_model.py lines 21-45): project
both batches, L2-normalize, scaled logits, symmetric cross-entropy, average. -/
noncomputable def clipForward {batch dI dT D : ℕ} (temperature : ℝ)
    (Wimg : Fin D → Fin dI → ℝ) (bimg : Fin D → ℝ)
    (Wtxt : Fin D → Fin dT → ℝ) (btxt : Fin D → ℝ)
    (sources : Fin batch → Fin dI → ℝ) (targets : Fin batch → Fin dT → ℝ) : ℝ :=
  contrastiveCore temperature
    (fun i => linearForward Wimg bimg (sources i))
    (fun i => linearForward Wtxt btxt (targets i))

/-- The reference loss computation, written from the spec's own sentences
(spec.md §4.2): project both batches, L2-normalize both embedding sets, form
`logits = text_embeddings · image_embeddingsᵗ` scaled by `exp(temperature)`,
take diagonal targets, cross-entropy over rows of the logits (text→image) and
over rows of the transposed logits (image→text), and return the arithmetic
mean of the two directional losses. -/
noncomputable def specReferenceLoss {batch dI dT D : ℕ} (temperature : ℝ)
    (Wimg : Fin D → Fin dI → ℝ) (bimg : Fin D → ℝ)
    (Wtxt : Fin D → Fin dT → ℝ) (btxt : Fin D → ℝ)
    (sources : Fin batch → Fin dI → ℝ) (targets : Fin batch → Fin dT → ℝ) : ℝ :=
  let imageEmbeddings := fun i => l2normalize (linearForward Wimg bimg (sources i))
  let textEmbeddings := fun i => l2normalize (linearForward Wtxt btxt (targets i))
  let logits := fun i j => dotR (textEmbeddings i) (imageEmbeddings j) * Real.exp temperature
  let textToImage := (∑ i, crossEntropyRow (logits i) i) / batch
  let imageToText := (∑ i, crossEntropyRow (fun j => logits j i) i) / batch
  (textToImage + imageToText) / 2

/-! ## Helper lemmas -/

theorem dotR_comm {d : ℕ} (u v : Fin d → ℝ) : dotR u v = dotR v u := by
  simp only [dotR]
  exact Finset.sum_congr rfl fun i _ => mul_comm _ _

theorem sqNormR_nonneg {d : ℕ} (v : Fin d → ℝ) : 0 ≤ sqNormR v :=
  Finset.sum_nonneg fun _ _ => sq_nonneg _

theorem sqNormR_l2normalize {d : ℕ} {v : Fin d → ℝ} (h : sqNormR v ≠ 0) :
    sqNormR (l2normalize v) = 1 := by
  simp only [sqNormR, l2normalize, div_pow, ← Finset.sum_div]
  rw [Real.sq_sqrt (Finset.sum_nonneg fun i _ => sq_nonneg (v i))]
  exact div_self (by simpa [sqNormR] using h)

theorem dotR_l2normalize {d : ℕ} (u v : Fin d → ℝ) :
    dotR (l2normalize u) (l2normalize v) = cosineSim u v := by
  simp only [dotR, l2normalize, cosineSim, div_mul_div_comm, ← Finset.sum_div]

theorem contrastiveCore_def {batch d : ℕ} (temperature : ℝ) (X Y : Fin batch → Fin d → ℝ) :
    contrastiveCore temperature X Y =
      ((∑ i, crossEntropyRow
          (fun j => dotR (l2normalize (Y j)) (l2normalize (X i)) * Real.exp temperature) i) / batch
       + (∑ i, crossEntropyRow
          (fun j => dotR (l2normalize (Y i)) (l2normalize (X j)) * Real.exp temperature) i) / batch) / 2 :=
  rfl

/-! ## Claims -/

/-- C6: at construction of the contrastive model, the learnable temperature is
initialized to exactly `ln(1/0.07)`, so the initial logit scale
`exp(temperature)` is approximately 14.3. -/
theorem clip_temperature_init_value :
    clipTemperatureInit = Real.log (1 / 0.07)
    ∧ Real.exp clipTemperatureInit = 1 / 0.07
    ∧ |(1 : ℝ) / 0.07 - 14.3| < 1 / 20 := by
  refine ⟨one_mul _, ?_, ?_⟩
  · rw [clipTemperatureInit, one_mul, Real.exp_log (by norm_num)]
  · rw [abs_lt]
    constructor <;> norm_num

/-- C2: `CLIP.forward` equals the spec's reference computation: project both
batches, L2-normalize, `logits = text · imageᵗ * exp(temperature)`, diagonal
targets, cross-entropy of the logits rows and of the transposed logits rows,
arithmetic mean of the two. -/
theorem clip_forward_eq_reference {batch dI dT D : ℕ} (temperature : ℝ)
    (Wimg : Fin D → Fin dI → ℝ) (bimg : Fin D → ℝ)
    (Wtxt : Fin D → Fin dT → ℝ) (btxt : Fin D → ℝ)
    (sources : Fin batch → Fin dI → ℝ) (targets : Fin batch → Fin dT → ℝ) :
    clipForward temperature Wimg bimg Wtxt btxt sources targets
      = specReferenceLoss temperature Wimg bimg Wtxt btxt sources targets := by
  rw [clipForward, contrastiveCore_def]
  simp only [specReferenceLoss]
  ring

/-- C5: the contrastive loss is symmetric under swapping the image and text
embedding sets (the logits matrix transposes, and the two directional
cross-entropy terms exchange before averaging). -/
theorem contrastive_loss_symmetric {batch d : ℕ} (temperature : ℝ)
    (imageSet textSet : Fin batch → Fin d → ℝ) :
    contrastiveCore temperature imageSet textSet
      = contrastiveCore temperature textSet imageSet := by
  rw [contrastiveCore_def, contrastiveCore_def]
  have h1 : (∑ i, crossEntropyRow
        (fun j => dotR (l2normalize (imageSet j)) (l2normalize (textSet i)) * Real.exp temperature) i)
      = ∑ i, crossEntropyRow
        (fun j => dotR (l2normalize (textSet i)) (l2normalize (imageSet j)) * Real.exp temperature) i := by
    refine Finset.sum_congr rfl fun i _ => ?_
    congr 1
    funext j
    rw [dotR_comm]
  have h2 : (∑ i, crossEntropyRow
        (fun j => dotR (l2normalize (imageSet i)) (l2normalize (textSet j)) * Real.exp temperature) i)
      = ∑ i, crossEntropyRow
        (fun j => dotR (l2normalize (textSet j)) (l2normalize (imageSet i)) * Real.exp temperature) i := by
    refine Finset.sum_congr rfl fun i _ => ?_
    congr 1
    funext j
    rw [dotR_comm]
  rw [h1, h2]
  ring

/-- Concrete 1×1 projection weight used by the C1 counterexample and witness. -/
noncomputable def exWeight : Fin 1 → Fin 1 → ℝ := fun _ _ => 2

/-- Concrete 1-d projection bias used by the C1 counterexample and witness. -/
noncomputable def exBias : Fin 1 → ℝ := fun _ => 0

/-- Concrete 1-d feature vector used by the C1 counterexample and witness. -/
noncomputable def exFeature : Fin 1 → ℝ := fun _ => 1

theorem exProjection_eq : linearForward exWeight exBias exFeature = fun _ => 2 := by
  funext o
  simp [linearForward, exWeight, exBias, exFeature]

theorem exProjection_sqNorm : sqNormR (linearForward exWeight exBias exFeature) = 4 := by
  rw [exProjection_eq]
  simp [sqNormR]
  norm_num

/-- C1 counterexample: with projection weight `[[2]]`, bias `[0]` and feature
vector `[1]`, `CLIPRetrieval.build_dictionnaries` stores the embedding `[2]`,
whose squared L2 norm is 4, not 1, and which differs from the L2-normalized
projection — the stored table entry is not normalized. -/
theorem build_dictionnaries_unnormalized_counterexample :
    sqNormR (retrievalStoredEmbedding exWeight exBias exFeature) = 4
    ∧ (4 : ℝ) ≠ 1
    ∧ retrievalStoredEmbedding exWeight exBias exFeature
      ≠ l2normalize (linearForward exWeight exBias exFeature) := by
  refine ⟨exProjection_sqNorm, by norm_num, ?_⟩
  intro heq
  have h0 := congrFun heq 0
  rw [retrievalStoredEmbedding] at h0
  rw [show (l2normalize (linearForward exWeight exBias exFeature) : Fin 1 → ℝ) 0
        = linearForward exWeight exBias exFeature 0 / Real.sqrt 4 from by
      rw [l2normalize, exProjection_sqNorm]] at h0
  rw [show Real.sqrt 4 = 2 from by
      rw [show (4 : ℝ) = 2 ^ 2 by norm_num, Real.sqrt_sq (by norm_num)]] at h0
  rw [exProjection_eq] at h0
  norm_num at h0

/-- C1 amended: in `CLIPRetrievalIN.build_dictionnaries` the stored embedding
is the projected feature vector L2-normalized; whenever the projection is
nonzero it has squared norm 1, and the dot product of two stored embeddings is
the cosine similarity of the projected vectors.  (`CLIPRetrieval`'s build, by
contrast, stores the projection unnormalized — see the counterexample.) -/
theorem buildIN_stores_normalized_embedding {dIn dOut : ℕ}
    (W : Fin dOut → Fin dIn → ℝ) (b : Fin dOut → ℝ) (x : Fin dIn → ℝ)
    (h : sqNormR (linearForward W b x) ≠ 0) :
    retrievalINStoredEmbedding W b x = l2normalize (linearForward W b x)
    ∧ sqNormR (retrievalINStoredEmbedding W b x) = 1
    ∧ ∀ y : Fin dIn → ℝ,
        dotR (retrievalINStoredEmbedding W b x) (retrievalINStoredEmbedding W b y)
          = cosineSim (linearForward W b x) (linearForward W b y) :=
  ⟨rfl, sqNormR_l2normalize h, fun y => dotR_l2normalize (linearForward W b x) (linearForward W b y)⟩

/-- Witness for the amended C1 theorem at weight `[[2]]`, bias `[0]`, feature
`[1]`: the projection has squared norm 4 ≠ 0 and the stored embedding has
squared norm 1. -/
theorem buildIN_stores_normalized_embedding_witness :
    sqNormR (linearForward exWeight exBias exFeature) ≠ 0
    ∧ sqNormR (retrievalINStoredEmbedding exWeight exBias exFeature) = 1 := by
  have hne : sqNormR (linearForward exWeight exBias exFeature) ≠ 0 := by
    rw [exProjection_sqNorm]; norm_num
  exact ⟨hne, (buildIN_stores_normalized_embedding _ _ _ hne).2.1⟩

/-- C3: statistics computed over a corpus of size 1 give a zero-width min–max
range, and `normalize_similarity` then raises (`ZeroDivisionError` from Python
float division, modelled as `none`) for every query similarity and modality,
rather than silently returning a NaN/Inf score. -/
theorem degenerate_corpus_range_raises (v : List ℚ) (perm : List ℕ)
    (hp : perm.Perm (List.range 1)) :
    (compute_baseline_statistics [v] perm).max - (compute_baseline_statistics [v] perm).min = 0
    ∧ ∀ (sim : ℚ) (modality : String),
        normalize_similarity (compute_baseline_statistics [v] perm)
          (compute_baseline_statistics [v] perm) sim modality = none := by
  have hperm : perm = [0] := by
    simpa [List.range_succ] using List.perm_singleton.mp hp
  subst hperm
  have hzero : (compute_baseline_statistics [v] [0]).max
      - (compute_baseline_statistics [v] [0]).min = 0 := by
    simp [compute_baseline_statistics, sample_rows, sample_indices, n_samples,
      pairwise_sims, compute_stats, listMin, listMax]
  refine ⟨hzero, fun sim modality => ?_⟩
  rw [normalize_similarity]
  have hpick : pickStats (compute_baseline_statistics [v] [0])
      (compute_baseline_statistics [v] [0]) modality = compute_baseline_statistics [v] [0] := by
    rw [pickStats]
    split_ifs <;> rfl
  rw [hpick, normWith, if_pos hzero]

/-- Witness for C3 at the one-vector corpus `[[1, 2]]` with the identity
sample permutation `[0]` and the query `(5, "text")`. -/
theorem degenerate_corpus_range_raises_witness :
    List.Perm [0] (List.range 1)
    ∧ (compute_baseline_statistics [[(1 : ℚ), 2]] [0]).max
        - (compute_baseline_statistics [[(1 : ℚ), 2]] [0]).min = 0
    ∧ normalize_similarity (compute_baseline_statistics [[(1 : ℚ), 2]] [0])
        (compute_baseline_statistics [[(1 : ℚ), 2]] [0]) 5 "text" = none :=
  ⟨by decide,
   (degenerate_corpus_range_raises [(1 : ℚ), 2] [0] (by decide)).1,
   (degenerate_corpus_range_raises [(1 : ℚ), 2] [0] (by decide)).2 5 "text"⟩

/-- C4: `evaluate_similarity` buckets by comparing the similarity against the
95/90/75/50 percentiles in descending order with `>=` (half-open) thresholds:
for any statistics record with monotone percentiles (as every record produced
from a corpus is) each tier is characterized exactly by its half-open interval,
a value equal to the 90th percentile is never "Good match (top 25%)", and when
it is additionally below the 95th percentile it is classified
"Very good match (top 10%)". -/
theorem evaluate_similarity_halfopen_tiers (textStats imageStats : SimStats)
    (modality : String) (sim : ℚ)
    (hm1 : (pickStats textStats imageStats modality).p50
        ≤ (pickStats textStats imageStats modality).p75)
    (hm2 : (pickStats textStats imageStats modality).p75
        ≤ (pickStats textStats imageStats modality).p90)
    (hm3 : (pickStats textStats imageStats modality).p90
        ≤ (pickStats textStats imageStats modality).p95) :
    (evaluate_similarity textStats imageStats sim modality = "Excellent match (top 5%)"
      ↔ (pickStats textStats imageStats modality).p95 ≤ sim)
    ∧ (evaluate_similarity textStats imageStats sim modality = "Very good match (top 10%)"
      ↔ (pickStats textStats imageStats modality).p90 ≤ sim
          ∧ sim < (pickStats textStats imageStats modality).p95)
    ∧ (evaluate_similarity textStats imageStats sim modality = "Good match (top 25%)"
      ↔ (pickStats textStats imageStats modality).p75 ≤ sim
          ∧ sim < (pickStats textStats imageStats modality).p90)
    ∧ (evaluate_similarity textStats imageStats sim modality = "Moderate match"
      ↔ (pickStats textStats imageStats modality).p50 ≤ sim
          ∧ sim < (pickStats textStats imageStats modality).p75)
    ∧ (evaluate_similarity textStats imageStats sim modality = "Weak match"
      ↔ sim < (pickStats textStats imageStats modality).p50)
    ∧ (sim = (pickStats textStats imageStats modality).p90 →
        evaluate_similarity textStats imageStats sim modality ≠ "Good match (top 25%)")
    ∧ (sim = (pickStats textStats imageStats modality).p90 →
        sim < (pickStats textStats imageStats modality).p95 →
        evaluate_similarity textStats imageStats sim modality = "Very good match (top 10%)") := by
  simp only [evaluate_similarity, evalWith, ge_iff_le]
  split_ifs with h1 h2 h3 h4 <;>
    refine ⟨?_, ?_, ?_, ?_, ?_, ?_, ?_⟩ <;>
      simp_all <;> intros <;> linarith

/-- Concrete statistics record for the C4 and C10 witnesses:
percentiles 25/50/75/90/95 are 1/2/3/4/5. -/
def exStats : SimStats := ⟨0, 0, 0, 1, 1, 2, 3, 4, 5⟩

/-- Second concrete statistics record (different from `exStats`) used as the
text-modality record in the C10 witness. -/
def exStatsB : SimStats := ⟨0, 0, 10, 20, 11, 12, 13, 14, 15⟩

/-- Witness for C4: with percentiles 1/2/3/4/5, the similarity 4 — exactly the
90th percentile and below the 95th — is classified "Very good match (top 10%)"
and not "Good match (top 25%)". -/
theorem evaluate_similarity_halfopen_tiers_witness :
    (4 : ℚ) = (pickStats exStats exStats "text").p90
    ∧ (4 : ℚ) < (pickStats exStats exStats "text").p95
    ∧ evaluate_similarity exStats exStats 4 "text" = "Very good match (top 10%)"
    ∧ evaluate_similarity exStats exStats 4 "text" ≠ "Good match (top 25%)" := by
  have h90 : (4 : ℚ) = (pickStats exStats exStats "text").p90 := by
    norm_num [pickStats, exStats]
  have h95 : (4 : ℚ) < (pickStats exStats exStats "text").p95 := by
    norm_num [pickStats, exStats]
  have hm1 : (pickStats exStats exStats "text").p50 ≤ (pickStats exStats exStats "text").p75 := by
    norm_num [pickStats, exStats]
  have hm2 : (pickStats exStats exStats "text").p75 ≤ (pickStats exStats exStats "text").p90 := by
    norm_num [pickStats, exStats]
  have hm3 : (pickStats exStats exStats "text").p90 ≤ (pickStats exStats exStats "text").p95 := by
    norm_num [pickStats, exStats]
  exact ⟨h90, h95,
    (evaluate_similarity_halfopen_tiers exStats exStats "text" 4 hm1 hm2 hm3).2.2.2.2.2.2 h90 h95,
    (evaluate_similarity_halfopen_tiers exStats exStats "text" 4 hm1 hm2 hm3).2.2.2.2.2.1 h90⟩

/-- C10: for every modality string other than exactly `"text"` (including
`"image"` and unrecognized values), both scoring methods silently select the
image-modality statistics, and `evaluate_similarity` returns one of the five
tier strings — no unknown-modality error exists. -/
theorem unknown_modality_uses_image_stats (textStats imageStats : SimStats)
    (sim : ℚ) (modality : String) (h : modality ≠ "text") :
    pickStats textStats imageStats modality = imageStats
    ∧ normalize_similarity textStats imageStats sim modality = normWith imageStats sim
    ∧ evaluate_similarity textStats imageStats sim modality = evalWith imageStats sim
    ∧ evaluate_similarity textStats imageStats sim modality ∈
        ["Excellent match (top 5%)", "Very good match (top 10%)", "Good match (top 25%)",
         "Moderate match", "Weak match"] := by
  have hpick : pickStats textStats imageStats modality = imageStats := by
    rw [pickStats, if_neg h]
  refine ⟨hpick, ?_, ?_, ?_⟩
  · rw [normalize_similarity, hpick]
  · rw [evaluate_similarity, hpick]
  · rw [evaluate_similarity, hpick, evalWith]
    split_ifs <;> simp

/-- Witness for C10 at the unrecognized modality string `"imagery"`: the image
statistics are used even though the text statistics differ. -/
theorem unknown_modality_uses_image_stats_witness :
    ("imagery" : String) ≠ "text"
    ∧ pickStats exStatsB exStats "imagery" = exStats
    ∧ normalize_similarity exStatsB exStats 4 "imagery" = normWith exStats 4
    ∧ evaluate_similarity exStatsB exStats 4 "imagery" = evalWith exStats 4 :=
  ⟨by decide,
   (unknown_modality_uses_image_stats exStatsB exStats 4 "imagery" (by decide)).1,
   (unknown_modality_uses_image_stats exStatsB exStats 4 "imagery" (by decide)).2.1,
   (unknown_modality_uses_image_stats exStatsB exStats 4 "imagery" (by decide)).2.2.1⟩

/-- C7: for a built index of `N` entries, each modality's statistics are
computed over `min 1000 N` sample indices drawn without replacement (a prefix
of a permutation of `range N`): the sample has exactly that many pairwise
distinct in-range indices, the similarity matrix is formed over the sample only
(`min 1000 N` by `min 1000 N`, never `N` by `N`), the statistics are
`compute_stats` of that matrix, and they are a function of the current sample
alone (recomputed from scratch, no state carried from a previous build). -/
theorem compute_baseline_statistics_bounded_sample (embeddings : List (List ℚ))
    (perm : List ℕ) (hp : perm.Perm (List.range embeddings.length)) :
    (sample_indices embeddings.length perm).length = min 1000 embeddings.length
    ∧ (sample_indices embeddings.length perm).Nodup
    ∧ (∀ i ∈ sample_indices embeddings.length perm, i < embeddings.length)
    ∧ (pairwise_sims (sample_rows embeddings perm)).length = min 1000 embeddings.length
    ∧ (∀ row ∈ pairwise_sims (sample_rows embeddings perm),
        row.length = min 1000 embeddings.length)
    ∧ min 1000 embeddings.length ≤ 1000
    ∧ compute_baseline_statistics embeddings perm
        = compute_stats (pairwise_sims (sample_rows embeddings perm))
    ∧ (∀ (embeddings₂ : List (List ℚ)) (perm₂ : List ℕ),
        sample_rows embeddings perm = sample_rows embeddings₂ perm₂ →
        compute_baseline_statistics embeddings perm
          = compute_baseline_statistics embeddings₂ perm₂) := by
  have hlen : perm.length = embeddings.length := by
    simpa using hp.length_eq
  have hlen' : (sample_indices embeddings.length perm).length = min 1000 embeddings.length := by
    simp only [sample_indices, n_samples, List.length_take, hlen]
    omega
  have hnd : perm.Nodup := hp.nodup_iff.mpr (List.nodup_range _)
  refine ⟨hlen', ?_, ?_, ?_, ?_, Nat.min_le_left _ _, rfl, ?_⟩
  · exact hnd.sublist (List.take_sublist _ _)
  · intro i hi
    have hmem : i ∈ perm := List.mem_of_mem_take hi
    have : i ∈ List.range embeddings.length := hp.subset hmem
    exact List.mem_range.mp this
  · simp only [pairwise_sims, sample_rows, List.length_map]
    exact hlen'
  · intro row hrow
    simp only [pairwise_sims, List.mem_map] at hrow
    obtain ⟨u, _, rfl⟩ := hrow
    simp only [sample_rows, List.length_map]
    exact hlen'
  · intro embeddings₂ perm₂ hsame
    rw [compute_baseline_statistics, compute_baseline_statistics, hsame]

/-- Witness for C7 at the two-entry corpus `[[1], [2]]` with the sample
permutation `[1, 0]`. -/
theorem compute_baseline_statistics_bounded_sample_witness :
    List.Perm [1, 0] (List.range (List.length [[(1 : ℚ)], [2]]))
    ∧ (sample_indices (List.length [[(1 : ℚ)], [2]]) [1, 0]).length
        = min 1000 (List.length [[(1 : ℚ)], [2]])
    ∧ (sample_indices (List.length [[(1 : ℚ)], [2]]) [1, 0]).Nodup
    ∧ (pairwise_sims (sample_rows [[(1 : ℚ)], [2]] [1, 0])).length
        = min 1000 (List.length [[(1 : ℚ)], [2]]) :=
  ⟨by decide,
   (compute_baseline_statistics_bounded_sample [[(1 : ℚ)], [2]] [1, 0] (by decide)).1,
   (compute_baseline_statistics_bounded_sample [[(1 : ℚ)], [2]] [1, 0] (by decide)).2.1,
   (compute_baseline_statistics_bounded_sample [[(1 : ℚ)], [2]] [1, 0] (by decide)).2.2.2.1⟩

/-! ### Trainer helper lemmas -/

theorem epochLoopTrace_eq_flatMap (tb vb : ℕ) :
    ∀ E, epochLoopTrace E tb vb = (List.range E).flatMap (fun e => epochTrace e tb vb) := by
  intro E
  induction E with
  | zero => rfl
  | succ e ih =>
    rw [epochLoopTrace, ih, List.range_succ, List.flatMap_append]
    simp

theorem count_saveModel_epochTrace (e tb vb : ℕ) :
    (epochTrace e tb vb).count TrainerEvent.saveModel = 0 := by
  simp [epochTrace, trainPhaseTrace, validatePhaseTrace, List.count_append,
    List.count_eq_zero, List.mem_map]

theorem count_saveModel_epochLoopTrace (tb vb : ℕ) :
    ∀ E, (epochLoopTrace E tb vb).count TrainerEvent.saveModel = 0 := by
  intro E
  induction E with
  | zero => rfl
  | succ e ih => rw [epochLoopTrace, List.count_append, ih, count_saveModel_epochTrace]

theorem countP_isGradStep_epochTrace (e tb vb : ℕ) :
    (epochTrace e tb vb).countP isGradStep = tb := by
  simp [epochTrace, trainPhaseTrace, validatePhaseTrace, List.countP_append,
    List.countP_map, Function.comp_def, isGradStep]

theorem countP_isValForward_epochTrace (e tb vb : ℕ) :
    (epochTrace e tb vb).countP isValForward = vb := by
  simp [epochTrace, trainPhaseTrace, validatePhaseTrace, List.countP_append,
    List.countP_map, Function.comp_def, isValForward]

theorem countP_isGradStep_epochLoopTrace (tb vb : ℕ) :
    ∀ E, (epochLoopTrace E tb vb).countP isGradStep = E * tb := by
  intro E
  induction E with
  | zero => simp [epochLoopTrace]
  | succ e ih =>
    rw [epochLoopTrace, List.countP_append, ih, countP_isGradStep_epochTrace]
    ring

theorem countP_isValForward_epochLoopTrace (tb vb : ℕ) :
    ∀ E, (epochLoopTrace E tb vb).countP isValForward = E * vb := by
  intro E
  induction E with
  | zero => simp [epochLoopTrace]
  | succ e ih =>
    rw [epochLoopTrace, List.countP_append, ih, countP_isValForward_epochTrace]
    ring

/-- C8: `Trainer.run` with `E` configured epochs produces the trace of epoch
blocks 0..E-1 in order, each a TRAIN phase (one gradient step per training
batch) followed by a VALIDATE phase (one forward pass per validation batch),
and persists the model exactly once, as the very last action after the final
epoch — `E * tb` gradient steps, `E * vb` validation forwards, one save. -/
theorem trainer_run_epochs_then_save_once (E tb vb : ℕ) :
    runTrace E tb vb
      = (List.range E).flatMap
          (fun e => trainPhaseTrace e tb ++ validatePhaseTrace e vb) ++ [TrainerEvent.saveModel]
    ∧ (runTrace E tb vb).count TrainerEvent.saveModel = 1
    ∧ (runTrace E tb vb).getLast? = some TrainerEvent.saveModel
    ∧ (runTrace E tb vb).countP isGradStep = E * tb
    ∧ (runTrace E tb vb).countP isValForward = E * vb := by
  refine ⟨?_, ?_, ?_, ?_, ?_⟩
  · rw [runTrace, epochLoopTrace_eq_flatMap]
    rfl
  · rw [runTrace, List.count_append, count_saveModel_epochLoopTrace]
    rfl
  · rw [runTrace]
    exact List.getLast?_concat _
  · rw [runTrace, List.countP_append, countP_isGradStep_epochLoopTrace]
    rfl
  · rw [runTrace, List.countP_append, countP_isValForward_epochLoopTrace]
    rfl

/-- C9: across `trainerEpochs`, the optimizer state every epoch's TRAIN phase
starts from is the freshly constructed one — zero first and second moments,
step count 0 (`optimizer = torch.optim.AdamW(...)` runs inside `train`) — for
any per-batch library update rule; and the parameters are the only state
carried across epochs: the run is the `E`-fold iterate of the
parameters-to-parameters epoch map, the end-of-epoch optimizer state being
discarded. -/
theorem trainer_fresh_optimizer_each_epoch {P M B : Type}
    (adamStep : P → AdamState M → B → P × AdamState M) (zero : M) (batches : List B)
    (E : ℕ) (θ : P) :
    (trainerEpochs adamStep zero batches E θ).2.map Prod.fst
        = List.replicate E (freshAdamState zero)
    ∧ (∀ p ∈ (trainerEpochs adamStep zero batches E θ).2,
        p.1.expAvg = zero ∧ p.1.expAvgSq = zero ∧ p.1.stepCount = 0)
    ∧ (trainerEpochs adamStep zero batches E θ).1
        = (fun t => (trainEpoch adamStep zero batches t).1)^[E] θ := by
  induction E with
  | zero => exact ⟨rfl, fun p hp => absurd hp (List.not_mem_nil p), rfl⟩
  | succ e ih =>
    obtain ⟨ih1, ih2, ih3⟩ := ih
    refine ⟨?_, ?_, ?_⟩
    · rw [trainerEpochs]
      simp only [List.map_append, ih1, List.map_cons, List.map_nil]
      rw [List.replicate_succ']
    · intro p hp
      rw [trainerEpochs] at hp
      simp only [List.mem_append, List.mem_singleton] at hp
      rcases hp with hp | hp
      · exact ih2 p hp
      · rw [hp]
        exact ⟨rfl, rfl, rfl⟩
    · rw [trainerEpochs, Function.iterate_succ_apply']
      simp only [← ih3]

end MedCLIP
